import Mathlib

/-!
Verification of the startup-idea-analysis scoring core.

The financial scoring engine (`src/idea_generator/models/ai_generated_models.py`)
and the quantitative SWOT engine (`src/idea_generator/utils/ai_generated_swot.py`)
are shallowly embedded here.  Python floats are modelled as exact rationals;
the two places where the Python code produces an IEEE infinity
(`math.inf` from `calculate_payback_period`, and its propagation through the
linear rank formula to `-inf`) are modelled with an explicit extended-rational
type `XRat`.  Python's `ZeroDivisionError` (raised by `calculate_roi` when
`initial_investment == 0`) is modelled by returning `none`.
-/

namespace StartupIdea

/-- Extended rationals: a finite value or one of the two IEEE infinities that
the Python code can produce. -/
inductive XRat where
  | fin : ℚ → XRat
  | posInf : XRat
  | negInf : XRat
deriving DecidableEq, Repr

/-- Embeds `BusinessIdea` (pydantic model).  Field order and names follow the
source; floats become `ℚ`, `Optional[T]` becomes `Option T`. -/
structure BusinessIdea where
  name : String
  description : String
  details : String
  industry : String
  sub_industry : Option String
  target_market : String
  unique_value_proposition : String
  market_cap : ℚ
  competitors : List String
  growth_rate : ℚ
  initial_investment : ℚ
  potential_revenue : ℚ
  profit_margin : ℚ
  target_audience_size : ℤ
  customer_acquisition_cost : ℚ
  customer_lifetime_value : ℚ
  market_saturation : ℚ
  business_stage : String
  funding_sources : List String
  team_size : Option ℤ
  key_resources : List String
  potential_risks : List String
deriving DecidableEq, Repr

/-- Embeds `SWOTAnalysis` (qualitative, four string lists). -/
structure SWOTAnalysis where
  strengths : List String
  weaknesses : List String
  opportunities : List String
  threats : List String
deriving DecidableEq, Repr

/-- Embeds `BusinessAnalysisResult`.  `payback_period_years` and `rank_score`
can be infinite in the source, hence `XRat`. -/
structure BusinessAnalysisResult where
  business_name : String
  industry : String
  roi_percentage : ℚ
  market_attractiveness : ℚ
  competitor_density : ℚ
  payback_period_years : XRat
  customer_profitability : ℚ
  market_saturation_score : ℚ
  rank_score : XRat
  swot_analysis : Option SWOTAnalysis
deriving DecidableEq, Repr

/-- Embeds `calculate_roi`.  The Python body divides by `initial_investment`;
at `0` that raises `ZeroDivisionError`, modelled as `none`. -/
def calculate_roi (potential_revenue profit_margin initial_investment : ℚ) :
    Option ℚ :=
  if initial_investment = 0 then none
  else
    some ((potential_revenue * (profit_margin / 100) - initial_investment) /
      initial_investment * 100)

/-- Embeds `calculate_competitor_density`:
`market_cap / len(competitors) if competitors else 0`. -/
def calculate_competitor_density (market_cap : ℚ) (competitors : List String) :
    ℚ :=
  if competitors ≠ [] then market_cap / competitors.length else 0

/-- Embeds `calculate_market_attractiveness`:
`growth_rate / competitor_density if competitor_density > 0 else 0`. -/
def calculate_market_attractiveness (growth_rate competitor_density : ℚ) : ℚ :=
  if competitor_density > 0 then growth_rate / competitor_density else 0

/-- Embeds `calculate_payback_period`:
`initial_investment / annual_profit if annual_profit > 0 else math.inf`. -/
def calculate_payback_period (initial_investment annual_profit : ℚ) : XRat :=
  if annual_profit > 0 then .fin (initial_investment / annual_profit)
  else .posInf

/-- Embeds `calculate_market_saturation_score`:
`max(0, 100 - market_saturation) / 100`. -/
def calculate_market_saturation_score (market_saturation : ℚ) : ℚ :=
  max 0 (100 - market_saturation) / 100

/-- Embeds `calculate_customer_profitability`: `lifetime_value - acquisition_cost`. -/
def calculate_customer_profitability (lifetime_value acquisition_cost : ℚ) : ℚ :=
  lifetime_value - acquisition_cost

/-- The source's rank expression
`roi*0.3 + market_attractiveness*0.2 + market_saturation_score*0.2 +
customer_profitability*0.2 - payback_period*0.1` evaluated in IEEE float
arithmetic: the four finite terms are exact, and when `payback_period` is
`+inf` the whole sum is `-inf`. -/
def combine_rank_score (roi market_attractiveness market_saturation_score
    customer_profitability : ℚ) (payback_period : XRat) : XRat :=
  match payback_period with
  | .fin p =>
      .fin (roi * 0.3 + market_attractiveness * 0.2 +
        market_saturation_score * 0.2 + customer_profitability * 0.2 - p * 0.1)
  | .posInf => .negInf
  | .negInf => .posInf

/-- Embeds `rank_business_idea`.  The rank formula is the source's
`roi*0.3 + market_attractiveness*0.2 + market_saturation_score*0.2 +
customer_profitability*0.2 - payback_period*0.1`; when the payback period is
`+inf` the four finite terms minus `0.1·inf` evaluate to `-inf` in IEEE float
arithmetic, which the `XRat` match reproduces. -/
def rank_business_idea (business : BusinessIdea) (swot : Option SWOTAnalysis) :
    Option BusinessAnalysisResult :=
  (calculate_roi business.potential_revenue business.profit_margin
      business.initial_investment).map fun roi =>
    let competitor_density :=
      calculate_competitor_density business.market_cap business.competitors
    let market_attractiveness :=
      calculate_market_attractiveness business.growth_rate competitor_density
    let payback_period :=
      calculate_payback_period business.initial_investment
        (business.potential_revenue * (business.profit_margin / 100))
    let customer_profitability :=
      calculate_customer_profitability business.customer_lifetime_value
        business.customer_acquisition_cost
    let market_saturation_score :=
      calculate_market_saturation_score business.market_saturation
    let rank_score : XRat :=
      combine_rank_score roi market_attractiveness market_saturation_score
        customer_profitability payback_period
    { business_name := business.name
      industry := business.industry
      roi_percentage := roi
      market_attractiveness := market_attractiveness
      competitor_density := competitor_density
      payback_period_years := payback_period
      customer_profitability := customer_profitability
      market_saturation_score := market_saturation_score
      rank_score := rank_score
      swot_analysis := swot }

/-- Embeds `WeightedSWOTFactor`. -/
structure WeightedSWOTFactor where
  description : String
  weight : ℚ
deriving DecidableEq, Repr

/-- Embeds `SWOTAnalysisQuantitative` (four lists of weighted factors). -/
structure SWOTAnalysisQuantitative where
  strengths : List WeightedSWOTFactor
  weaknesses : List WeightedSWOTFactor
  opportunities : List WeightedSWOTFactor
  threats : List WeightedSWOTFactor
deriving DecidableEq, Repr

/-- Embeds `calculate_net_positive_score`:
`sum(strengths + opportunities) - sum(weaknesses + threats)` over weights. -/
def SWOTAnalysisQuantitative.calculate_net_positive_score
    (a : SWOTAnalysisQuantitative) : ℚ :=
  ((a.strengths ++ a.opportunities).map (·.weight)).sum -
    ((a.weaknesses ++ a.threats).map (·.weight)).sum

/-- Result shape of `category_weight_summaries` (the Python dict with the four
fixed keys becomes a record). -/
structure CategorySummaries where
  strengths : ℚ
  weaknesses : ℚ
  opportunities : ℚ
  threats : ℚ
deriving DecidableEq, Repr

/-- Embeds `category_weight_summaries`: per-category weight sums. -/
def SWOTAnalysisQuantitative.category_weight_summaries
    (a : SWOTAnalysisQuantitative) : CategorySummaries :=
  { strengths := (a.strengths.map (·.weight)).sum
    weaknesses := (a.weaknesses.map (·.weight)).sum
    opportunities := (a.opportunities.map (·.weight)).sum
    threats := (a.threats.map (·.weight)).sum }

/-- Embeds `generate_swot_insights`: three canned strings chosen by the three
comparisons in the source (`if/elif/else` on the net score, then two strict
`>` comparisons on category summaries). -/
def SWOTAnalysisQuantitative.generate_swot_insights
    (a : SWOTAnalysisQuantitative) : List String :=
  let net_score := a.calculate_net_positive_score
  let category_summaries := a.category_weight_summaries
  let first :=
    if net_score > 0 then
      "The overall analysis indicates a positive outlook for the business idea."
    else if net_score < 0 then
      "The overall analysis indicates significant challenges that may outweigh benefits."
    else
      "The analysis is balanced; careful consideration of strengths and weaknesses is needed."
  let second :=
    if category_summaries.opportunities > category_summaries.threats then
      "Opportunities outweigh threats, suggesting potential for growth."
    else
      "Threats outweigh opportunities; risk mitigation strategies are advised."
  let third :=
    if category_summaries.strengths > category_summaries.weaknesses then
      "Strengths outweigh weaknesses, indicating a solid foundation."
    else
      "Weaknesses outweigh strengths; addressing these issues is critical."
  [first, second, third]

/-- The concatenation `strengths + weaknesses + opportunities + threats` built
inside `rank_swot_impact`. -/
def SWOTAnalysisQuantitative.all_factors (a : SWOTAnalysisQuantitative) :
    List WeightedSWOTFactor :=
  a.strengths ++ a.weaknesses ++ a.opportunities ++ a.threats

/-- The comparator of `sorted(all_factors, key=lambda f: abs(f.weight),
reverse=True)`: keep `x` before `y` when `|y.weight| ≤ |x.weight|`.  A stable
sort with this comparator is exactly Python's stable descending sort on the
key `abs(weight)`. -/
def swotAbsDescLE (x y : WeightedSWOTFactor) : Bool :=
  decide (|y.weight| ≤ |x.weight|)

/-- The sorted list `ranked_factors` from `rank_swot_impact` (Python `sorted`
is a stable merge sort, as is `List.mergeSort`). -/
def SWOTAnalysisQuantitative.ranked_factors (a : SWOTAnalysisQuantitative) :
    List WeightedSWOTFactor :=
  a.all_factors.mergeSort swotAbsDescLE

/-- Embeds `rank_swot_impact`: descriptions of `ranked_factors[:3]` and of
`ranked_factors[-3:]` (the Python slice `[-3:]` is `drop (length - 3)`). -/
def SWOTAnalysisQuantitative.rank_swot_impact (a : SWOTAnalysisQuantitative) :
    List String × List String :=
  ((a.ranked_factors.take 3).map (·.description),
   (a.ranked_factors.drop (a.ranked_factors.length - 3)).map (·.description))

/-- A concrete business idea used to witness the ranking theorems. -/
def exampleIdea : BusinessIdea :=
  { name := "Example venture"
    description := "A sample business"
    details := "Sample details"
    industry := "Technology"
    sub_industry := none
    target_market := "Consumers"
    unique_value_proposition := "Novel approach"
    market_cap := 1000000
    competitors := ["A", "B"]
    growth_rate := 10
    initial_investment := 50000
    potential_revenue := 100000
    profit_margin := 50
    target_audience_size := 1000
    customer_acquisition_cost := 200
    customer_lifetime_value := 500
    market_saturation := 40
    business_stage := "Idea"
    funding_sources := ["Bootstrapped"]
    team_size := none
    key_resources := []
    potential_risks := [] }

/-- A concrete qualitative SWOT used to witness the pass-through theorem. -/
def exampleSWOT : SWOTAnalysis :=
  { strengths := ["strong team"]
    weaknesses := ["small budget"]
    opportunities := ["growing market"]
    threats := ["competition"] }

/-- The quantitative SWOT example from the source's `__main__` block and the
spec: strengths `[8.0, 7.5]`, weaknesses `[-6.0, -4.0]`, opportunities
`[9.0, 5.0]`, threats `[-7.0, -5.5]`. -/
def exampleSwotQuant : SWOTAnalysisQuantitative :=
  { strengths := [⟨"Innovative technology", 8⟩, ⟨"Experienced team", 7.5⟩]
    weaknesses := [⟨"High cost of implementation", -6⟩,
      ⟨"Limited initial customer base", -4⟩]
    opportunities := [⟨"Growing market demand", 9⟩,
      ⟨"Partnership opportunities", 5⟩]
    threats := [⟨"Strong competition", -7⟩,
      ⟨"Economic downturn risks", -5.5⟩] }

/-- A quantitative SWOT with only two factors in total, to exercise the
fewer-than-three edge case of `rank_swot_impact`. -/
def smallSwotQuant : SWOTAnalysisQuantitative :=
  { strengths := [⟨"s1", 2⟩]
    weaknesses := [⟨"w1", -1⟩]
    opportunities := []
    threats := [] }

/-- The empty quantitative SWOT (all four category lists empty). -/
def emptySwotQuant : SWOTAnalysisQuantitative :=
  { strengths := [], weaknesses := [], opportunities := [], threats := [] }

/-- C2 counterexample: the claim says the result of
`calculate_market_saturation_score` always lies in `[0,1]`, but the input is
an unconstrained float; at `market_saturation = -50` the code returns `1.5`. -/
theorem calculate_market_saturation_score_not_le_one :
    calculate_market_saturation_score (-50) = 3 / 2 ∧
    ¬ calculate_market_saturation_score (-50) ≤ 1 := by
  norm_num [calculate_market_saturation_score]

/-- C2 (amended): `calculate_market_saturation_score` returns
`max(0, 100 - saturation)/100`, clamps to `0` for saturation ≥ 100, the two
spec examples hold, the result is always ≥ 0, and it lies in `[0,1]`
whenever the saturation input is nonnegative. -/
theorem calculate_market_saturation_score_spec (s : ℚ) :
    calculate_market_saturation_score s = max 0 (100 - s) / 100 ∧
    (100 ≤ s → calculate_market_saturation_score s = 0) ∧
    0 ≤ calculate_market_saturation_score s ∧
    (0 ≤ s → calculate_market_saturation_score s ≤ 1) ∧
    calculate_market_saturation_score 150 = 0 ∧
    calculate_market_saturation_score 40 = 3 / 5 := by
  refine ⟨rfl, ?_, ?_, ?_,
    by norm_num [calculate_market_saturation_score],
    by norm_num [calculate_market_saturation_score]⟩
  · intro h
    unfold calculate_market_saturation_score
    rw [max_eq_left (by linarith)]
    norm_num
  · exact div_nonneg (le_max_left _ _) (by norm_num)
  · intro h
    unfold calculate_market_saturation_score
    rw [div_le_one (by norm_num)]
    exact max_le (by norm_num) (by linarith)

/-- C2 witness: the amended theorem applied at saturations 40 and 150. -/
theorem calculate_market_saturation_score_spec_witness :
    calculate_market_saturation_score 40 ≤ 1 ∧
    calculate_market_saturation_score 150 = 0 :=
  ⟨(calculate_market_saturation_score_spec 40).2.2.2.1 (by norm_num),
   (calculate_market_saturation_score_spec 150).2.1 (by norm_num)⟩

/-- C4 counterexample: the claim's example says
`calculate_roi(100000, 20, 50000) = 60.0`, but the formula in the same claim
gives `(100000·0.2 - 50000)/50000·100 = -60`. -/
theorem calculate_roi_example_is_negative :
    calculate_roi 100000 20 50000 = some (-60) ∧
    calculate_roi 100000 20 50000 ≠ some 60 := by
  norm_num [calculate_roi]

/-- C4 (amended): for nonzero investment `calculate_roi` returns exactly
`(revenue·(margin/100) - investment)/investment·100`; at zero investment the
division faults (modelled as `none`); the corrected example value is `-60`. -/
theorem calculate_roi_spec (rev margin inv : ℚ) :
    (inv ≠ 0 → calculate_roi rev margin inv =
      some ((rev * (margin / 100) - inv) / inv * 100)) ∧
    calculate_roi rev margin 0 = none ∧
    calculate_roi 100000 20 50000 = some (-60) := by
  refine ⟨fun h => ?_, ?_, by norm_num [calculate_roi]⟩
  · simp [calculate_roi, h]
  · simp [calculate_roi]

/-- C4 witness: the amended theorem applied at `(100000, 80, 50000)`,
where the formula yields `60`. -/
theorem calculate_roi_spec_witness :
    calculate_roi 100000 80 50000 = some 60 := by
  have h := (calculate_roi_spec 100000 80 50000).1 (by norm_num)
  rw [h]
  norm_num

/-- C7: `calculate_competitor_density` returns `market_cap / count` for a
non-empty competitor list and `0` for an empty one (spec examples included),
and `calculate_market_attractiveness` returns `growth_rate / density` when
the density is positive and `0` when it is ≤ 0. -/
theorem degenerate_market_inputs_spec (mc : ℚ) (cs : List String)
    (gr cd : ℚ) :
    (cs = [] → calculate_competitor_density mc cs = 0) ∧
    (cs ≠ [] → calculate_competitor_density mc cs = mc / cs.length) ∧
    (0 < cd → calculate_market_attractiveness gr cd = gr / cd) ∧
    (cd ≤ 0 → calculate_market_attractiveness gr cd = 0) ∧
    calculate_competitor_density 1000000 [] = 0 ∧
    calculate_competitor_density 1000000 ["A", "B"] = 500000 := by
  refine ⟨fun h => ?_, fun h => ?_, fun h => ?_, fun h => ?_,
    by simp [calculate_competitor_density],
    by simp [calculate_competitor_density]; norm_num⟩
  · simp [calculate_competitor_density, h]
  · simp [calculate_competitor_density, h]
  · simp [calculate_market_attractiveness, h]
  · simp [calculate_market_attractiveness, not_lt.mpr h]

/-- C7 witness: the theorem applied at concrete degenerate inputs. -/
theorem degenerate_market_inputs_spec_witness :
    calculate_competitor_density 7 [] = 0 ∧
    calculate_market_attractiveness 10 0 = 0 :=
  ⟨(degenerate_market_inputs_spec 7 [] 10 0).1 rfl,
   (degenerate_market_inputs_spec 7 [] 10 0).2.2.2.1 le_rfl⟩

/-- C8: `calculate_payback_period` returns `investment / annual_profit` for
positive annual profit and `+inf` for annual profit ≤ 0; both spec examples
hold. -/
theorem calculate_payback_period_spec (inv p : ℚ) :
    (0 < p → calculate_payback_period inv p = XRat.fin (inv / p)) ∧
    (p ≤ 0 → calculate_payback_period inv p = XRat.posInf) ∧
    calculate_payback_period 50000 0 = XRat.posInf ∧
    calculate_payback_period 50000 25000 = XRat.fin 2 := by
  refine ⟨fun h => ?_, fun h => ?_, ?_, ?_⟩
  · simp [calculate_payback_period, h]
  · simp [calculate_payback_period, not_lt.mpr h]
  · simp [calculate_payback_period]
  · norm_num [calculate_payback_period]

/-- C8 witness: the theorem applied at the two spec examples. -/
theorem calculate_payback_period_spec_witness :
    calculate_payback_period 50000 25000 = XRat.fin 2 ∧
    calculate_payback_period 50000 0 = XRat.posInf := by
  refine ⟨?_, (calculate_payback_period_spec 50000 0).2.1 le_rfl⟩
  have h := (calculate_payback_period_spec 50000 25000).1 (by norm_num)
  rw [h]
  norm_num

/-- Unfolding lemma: when `calculate_roi` succeeds, `rank_business_idea`
returns the fully explicit result record. -/
theorem rank_business_idea_eq (b : BusinessIdea) (s : Option SWOTAnalysis)
    (roi : ℚ)
    (hroi : calculate_roi b.potential_revenue b.profit_margin
      b.initial_investment = some roi) :
    rank_business_idea b s = some
      { business_name := b.name
        industry := b.industry
        roi_percentage := roi
        market_attractiveness := calculate_market_attractiveness b.growth_rate
          (calculate_competitor_density b.market_cap b.competitors)
        competitor_density :=
          calculate_competitor_density b.market_cap b.competitors
        payback_period_years := calculate_payback_period b.initial_investment
          (b.potential_revenue * (b.profit_margin / 100))
        customer_profitability := calculate_customer_profitability
          b.customer_lifetime_value b.customer_acquisition_cost
        market_saturation_score :=
          calculate_market_saturation_score b.market_saturation
        rank_score := combine_rank_score roi
          (calculate_market_attractiveness b.growth_rate
            (calculate_competitor_density b.market_cap b.competitors))
          (calculate_market_saturation_score b.market_saturation)
          (calculate_customer_profitability b.customer_lifetime_value
            b.customer_acquisition_cost)
          (calculate_payback_period b.initial_investment
            (b.potential_revenue * (b.profit_margin / 100)))
        swot_analysis := s } := by
  unfold rank_business_idea
  rw [hroi]
  rfl

/-- C1: for any idea with nonzero initial investment, `rank_business_idea`
returns a result whose rank score is
`0.3·roi + 0.2·market_attractiveness + 0.2·market_saturation_score +
0.2·customer_profitability - 0.1·payback_period`, with the payback period
computed from annual profit `revenue·margin/100` and customer profitability
`lifetime_value - acquisition_cost`; when the annual profit is ≤ 0 the
payback period is `+inf` and the rank score is `-inf`. -/
theorem rank_business_idea_rank_score_spec (b : BusinessIdea)
    (s : Option SWOTAnalysis) (hinv : b.initial_investment ≠ 0) :
    ∃ r, rank_business_idea b s = some r ∧
      r.customer_profitability =
        b.customer_lifetime_value - b.customer_acquisition_cost ∧
      (b.potential_revenue * (b.profit_margin / 100) ≤ 0 →
        r.payback_period_years = XRat.posInf ∧
        r.rank_score = XRat.negInf) ∧
      (0 < b.potential_revenue * (b.profit_margin / 100) →
        r.payback_period_years = XRat.fin (b.initial_investment /
          (b.potential_revenue * (b.profit_margin / 100))) ∧
        r.rank_score = XRat.fin (0.3 * r.roi_percentage +
          0.2 * r.market_attractiveness + 0.2 * r.market_saturation_score +
          0.2 * r.customer_profitability -
          0.1 * (b.initial_investment /
            (b.potential_revenue * (b.profit_margin / 100))))) := by
  have hroi : calculate_roi b.potential_revenue b.profit_margin
      b.initial_investment = some
        ((b.potential_revenue * (b.profit_margin / 100) -
          b.initial_investment) / b.initial_investment * 100) := by
    simp [calculate_roi, hinv]
  refine ⟨_, rank_business_idea_eq b s _ hroi, rfl, fun h => ?_, fun h => ?_⟩
  · have hpp : calculate_payback_period b.initial_investment
        (b.potential_revenue * (b.profit_margin / 100)) = XRat.posInf := by
      simp [calculate_payback_period, not_lt.mpr h]
    exact ⟨hpp, by simp only [hpp, combine_rank_score]⟩
  · have hpp : calculate_payback_period b.initial_investment
        (b.potential_revenue * (b.profit_margin / 100)) =
        XRat.fin (b.initial_investment /
          (b.potential_revenue * (b.profit_margin / 100))) := by
      simp [calculate_payback_period, h]
    refine ⟨hpp, ?_⟩
    simp only [hpp, combine_rank_score, XRat.fin.injEq]
    ring

/-- C1 witness: the rank theorem applied to the concrete example idea. -/
theorem rank_business_idea_rank_score_spec_witness :
    (rank_business_idea exampleIdea none).isSome = true := by
  obtain ⟨r, hr, -⟩ := rank_business_idea_rank_score_spec exampleIdea none
    (by norm_num [exampleIdea])
  rw [hr]
  rfl

/-- C9: whenever `rank_business_idea` returns a result, the identifying and
qualitative fields pass through unchanged: `business_name = idea.name`,
`industry = idea.industry`, and `swot_analysis` is exactly the argument. -/
theorem rank_business_idea_passthrough (b : BusinessIdea)
    (s : Option SWOTAnalysis) (r : BusinessAnalysisResult)
    (h : rank_business_idea b s = some r) :
    r.business_name = b.name ∧ r.industry = b.industry ∧
    r.swot_analysis = s := by
  unfold rank_business_idea at h
  cases hc : calculate_roi b.potential_revenue b.profit_margin
      b.initial_investment with
  | none => rw [hc] at h; simp at h
  | some roi =>
    rw [hc] at h
    simp only [Option.map_some'] at h
    injection h with h
    subst h
    exact ⟨rfl, rfl, rfl⟩

/-- C9 witness: the pass-through theorem applied to the example idea with a
concrete SWOT argument. -/
theorem rank_business_idea_passthrough_witness :
    (rank_business_idea exampleIdea (some exampleSWOT)).map
      (·.business_name) = some "Example venture" ∧
    (rank_business_idea exampleIdea (some exampleSWOT)).map
      (·.swot_analysis) = some (some exampleSWOT) := by
  have hroi : calculate_roi exampleIdea.potential_revenue
      exampleIdea.profit_margin exampleIdea.initial_investment = some 0 := by
    norm_num [calculate_roi, exampleIdea]
  cases hc : rank_business_idea exampleIdea (some exampleSWOT) with
  | none =>
    rw [rank_business_idea_eq exampleIdea (some exampleSWOT) 0 hroi] at hc
    simp at hc
  | some r =>
    obtain ⟨h1, h2, h3⟩ := rank_business_idea_passthrough _ _ _ hc
    simp only [Option.map_some']
    exact ⟨congrArg some h1, congrArg some h3⟩

/-- C5: `calculate_net_positive_score` is the sum of strength and opportunity
weights minus the sum of weakness and threat weights, with the caller's signs
taken as supplied; on the spec's example it returns `52`. -/
theorem calculate_net_positive_score_spec (a : SWOTAnalysisQuantitative) :
    a.calculate_net_positive_score =
      ((a.strengths.map (·.weight)).sum +
        (a.opportunities.map (·.weight)).sum) -
      ((a.weaknesses.map (·.weight)).sum + (a.threats.map (·.weight)).sum) ∧
    exampleSwotQuant.calculate_net_positive_score = 52 := by
  constructor
  · simp [SWOTAnalysisQuantitative.calculate_net_positive_score]
  · norm_num [SWOTAnalysisQuantitative.calculate_net_positive_score,
      exampleSwotQuant]

/-- C6: `generate_swot_insights` returns exactly three strings, chosen by the
sign of the net score (the balanced string only at exactly zero), by the
strict comparison of the opportunities sum against the threats sum, and by
the strict comparison of the strengths sum against the weaknesses sum, with
ties falling to the `else` branch. -/
theorem generate_swot_insights_spec (a : SWOTAnalysisQuantitative) :
    a.generate_swot_insights.length = 3 ∧
    a.generate_swot_insights =
      [(if 0 < a.calculate_net_positive_score then
          "The overall analysis indicates a positive outlook for the business idea."
        else if a.calculate_net_positive_score < 0 then
          "The overall analysis indicates significant challenges that may outweigh benefits."
        else
          "The analysis is balanced; careful consideration of strengths and weaknesses is needed."),
       (if (a.threats.map (·.weight)).sum <
            (a.opportunities.map (·.weight)).sum then
          "Opportunities outweigh threats, suggesting potential for growth."
        else
          "Threats outweigh opportunities; risk mitigation strategies are advised."),
       (if (a.weaknesses.map (·.weight)).sum <
            (a.strengths.map (·.weight)).sum then
          "Strengths outweigh weaknesses, indicating a solid foundation."
        else
          "Weaknesses outweigh strengths; addressing these issues is critical.")] :=
  ⟨rfl, rfl⟩

/-- C10: the net positive score equals
`summaries.strengths + summaries.opportunities - summaries.weaknesses -
summaries.threats`, and on the empty SWOT the net score and every category
summary are `0`. -/
theorem net_score_matches_category_summaries (a : SWOTAnalysisQuantitative) :
    a.calculate_net_positive_score =
      a.category_weight_summaries.strengths +
        a.category_weight_summaries.opportunities -
        a.category_weight_summaries.weaknesses -
        a.category_weight_summaries.threats ∧
    emptySwotQuant.calculate_net_positive_score = 0 ∧
    emptySwotQuant.category_weight_summaries =
      { strengths := 0, weaknesses := 0, opportunities := 0, threats := 0 } := by
  refine ⟨?_,
    by simp [emptySwotQuant,
      SWOTAnalysisQuantitative.calculate_net_positive_score],
    by simp [emptySwotQuant,
      SWOTAnalysisQuantitative.category_weight_summaries]⟩
  simp only [SWOTAnalysisQuantitative.calculate_net_positive_score,
    SWOTAnalysisQuantitative.category_weight_summaries, List.map_append,
    List.sum_append]
  ring

/-- C3: the `ranked_factors` sequence inside `rank_swot_impact` is a
permutation of the concatenation strengths ++ weaknesses ++ opportunities ++
threats, sorted by absolute weight descending; the sort is stable (any
subsequence of the concatenation already in nonincreasing absolute-weight
order survives as a subsequence); the result is the first 3 and last 3
descriptions of that one sorted sequence; and when there are at most 3
factors in total the two lists coincide (no deduplication). -/
theorem rank_swot_impact_spec (a : SWOTAnalysisQuantitative) :
    List.Perm a.ranked_factors
      (a.strengths ++ a.weaknesses ++ a.opportunities ++ a.threats) ∧
    List.Pairwise (fun x y => |y.weight| ≤ |x.weight|) a.ranked_factors ∧
    (∀ c : List WeightedSWOTFactor,
      List.Sublist c
        (a.strengths ++ a.weaknesses ++ a.opportunities ++ a.threats) →
      List.Pairwise (fun x y => |y.weight| ≤ |x.weight|) c →
      List.Sublist c a.ranked_factors) ∧
    a.rank_swot_impact =
      ((a.ranked_factors.take 3).map (·.description),
       (a.ranked_factors.drop
         (a.ranked_factors.length - 3)).map (·.description)) ∧
    (a.all_factors.length ≤ 3 →
      a.rank_swot_impact.1 = a.rank_swot_impact.2) := by
  have htrans : ∀ x y z : WeightedSWOTFactor,
      swotAbsDescLE x y → swotAbsDescLE y z → swotAbsDescLE x z := by
    intro x y z hxy hyz
    simp only [swotAbsDescLE, decide_eq_true_eq] at hxy hyz ⊢
    exact le_trans hyz hxy
  have htotal : ∀ x y : WeightedSWOTFactor,
      swotAbsDescLE x y || swotAbsDescLE y x := by
    intro x y
    simp only [swotAbsDescLE, Bool.or_eq_true, decide_eq_true_eq]
    exact le_total _ _
  refine ⟨List.mergeSort_perm a.all_factors swotAbsDescLE, ?_, ?_, rfl, ?_⟩
  · exact (List.sorted_mergeSort htrans htotal a.all_factors).imp
      fun h => by simpa [swotAbsDescLE] using h
  · intro c hsub hpair
    exact List.sublist_mergeSort htrans htotal
      (hpair.imp fun h => by simpa [swotAbsDescLE] using h) hsub
  · intro h
    have hlen : a.ranked_factors.length = a.all_factors.length :=
      List.length_mergeSort a.all_factors
    have h3 : a.ranked_factors.length ≤ 3 := by omega
    have e1 : a.rank_swot_impact.1 =
        (a.ranked_factors.take 3).map (·.description) := rfl
    have e2 : a.rank_swot_impact.2 =
        (a.ranked_factors.drop
          (a.ranked_factors.length - 3)).map (·.description) := rfl
    rw [e1, e2, List.take_of_length_le h3, Nat.sub_eq_zero_of_le h3,
      List.drop_zero]

/-- C3 witness: on a SWOT with only two factors the most- and
least-impactful lists coincide. -/
theorem rank_swot_impact_spec_witness :
    smallSwotQuant.rank_swot_impact.1 = smallSwotQuant.rank_swot_impact.2 :=
  (rank_swot_impact_spec smallSwotQuant).2.2.2.2 (by decide)

end StartupIdea
